import Mathlib

/-!
Shallow embedding of the palura-frontend authentication core:
the OTP engine (src/services/otpService.js), the keyed record store
(src/services/storageService.js), and the auth orchestrator / session
engine (src/services/parentProfileService.js, auth part).

Modelling conventions:
* JS `Date.now()` timestamps and ISO timestamp strings are both modelled
  as integers in milliseconds (`Millis`); `toISOString` is injective on
  the millisecond value, so equality/inequality of stored timestamps is
  preserved.
* JS objects used as string-keyed dictionaries (parents, otp_data) are
  modelled as functions `String → Option value`; the sessions namespace,
  whose iteration order matters to `Object.values(...).find`, is an
  association list in insertion order.
* `Math.random()`-derived values (generated codes, tokens, device
  fingerprints) are passed in as explicit parameters.
* JS `email.toLowerCase()` is modelled by `lowerStr` (per-character
  `Char.toLower`, the basic-latin lowering).
* Nullable JS fields (`currentOTP`, `otpGeneratedAt`) are `Option`s; the
  source's falsy test `!data.currentOTP || !data.otpGeneratedAt` is a
  test for `none` (a generated code is a non-empty 6-digit string and a
  generation instant is a positive epoch millisecond, so the extra falsy
  values `""` and `0` never occur).
-/

namespace Palura

/-- Milliseconds since the epoch, as produced by `Date.now()`. -/
abbrev Millis := Int

/-- Model of JS `String.prototype.toLowerCase` (basic-latin lowering,
character by character). -/
def lowerStr (s : String) : String :=
  ⟨s.data.map Char.toLower⟩

/-- One entry of `data.attempts` in otpService: the object pushed by
`validateOTP` (`{otp, timestamp, success, reason}`). -/
structure Attempt where
  otp : String
  timestamp : Millis
  success : Bool
  reason : Option String
deriving DecidableEq, Repr

/-- The per-email OTP record handled by otpService (`getOTPData`). -/
structure OTPData where
  email : String
  attempts : List Attempt
  currentOTP : Option String
  otpGeneratedAt : Option Millis
deriving DecidableEq, Repr

/-- The `otp_data` namespace of storageService: a JS object keyed by
lowercased email. -/
abbrev OtpStore := String → Option OTPData

namespace otpStorage

/-- `otpStorage.getByEmail`: `otpData[email.toLowerCase()] || null`. -/
def getByEmail (st : OtpStore) (email : String) : Option OTPData :=
  st (lowerStr email)

/-- `otpStorage.save`: `otpData[email.toLowerCase()] = data` then a
whole-namespace write. -/
def save (st : OtpStore) (email : String) (data : OTPData) : OtpStore :=
  fun k => if k = lowerStr email then some data else st k

/-- `otpStorage.delete`: `delete otpData[email.toLowerCase()]`. -/
def delete (st : OtpStore) (email : String) : OtpStore :=
  fun k => if k = lowerStr email then none else st k

end otpStorage

namespace OTP_CONFIG

/-- `OTP_CONFIG.VALIDITY_MS`: 10 minutes. -/
def VALIDITY_MS : Millis := 10 * 60 * 1000

/-- `OTP_CONFIG.MAX_ATTEMPTS`. -/
def MAX_ATTEMPTS : Nat := 5

/-- `OTP_CONFIG.ATTEMPT_WINDOW_MS`: 1 hour. -/
def ATTEMPT_WINDOW_MS : Millis := 60 * 60 * 1000

end OTP_CONFIG

/-- otpService `getOTPData`: load the record for the email, or lazily
build a fresh one (not yet persisted). -/
def getOTPData (st : OtpStore) (email : String) : OTPData :=
  match otpStorage.getByEmail st email with
  | some data => data
  | none =>
    { email := lowerStr email
      attempts := []
      currentOTP := none
      otpGeneratedAt := none }

/-- otpService `cleanOldAttempts`: keep attempts with
`now - attempt.timestamp < ATTEMPT_WINDOW_MS`. -/
def cleanOldAttempts (now : Millis) (attempts : List Attempt) : List Attempt :=
  attempts.filter (fun attempt => decide (now - attempt.timestamp < OTP_CONFIG.ATTEMPT_WINDOW_MS))

/-- otpService `hasExceededMaxAttempts`:
`cleanOldAttempts(attempts).length >= MAX_ATTEMPTS`. -/
def hasExceededMaxAttempts (now : Millis) (attempts : List Attempt) : Bool :=
  decide (OTP_CONFIG.MAX_ATTEMPTS ≤ (cleanOldAttempts now attempts).length)

/-- Result object of `generateOTPForEmail`. -/
structure GenResult where
  success : Bool
  error : Option String := none
  otp : Option String := none
  expiresAt : Option Millis := none
deriving DecidableEq, Repr

/-- otpService `generateOTPForEmail`. The freshly generated random code
is the explicit parameter `otp`, and `now` is the call instant. Returns
the JS result object and the otp_data namespace after the call. -/
def generateOTPForEmail (st : OtpStore) (email otp : String) (now : Millis) :
    GenResult × OtpStore :=
  let data := getOTPData st email
  if hasExceededMaxAttempts now data.attempts then
    ({ success := false, error := some "Too many attempts. Please try again later." }, st)
  else
    let data1 := { data with currentOTP := some otp, otpGeneratedAt := some now }
    ({ success := true, otp := some otp, expiresAt := some (now + OTP_CONFIG.VALIDITY_MS) },
      otpStorage.save st email data1)

/-- Result object of `validateOTP`. -/
structure ValidateResult where
  valid : Bool
  error : Option String
deriving DecidableEq, Repr

/-- Body of otpService `validateOTP` after the initial
`getOTPData(email)` load (`data` is the loaded record); split out so
that theorems can quantify over the record directly. -/
def validateOTPCore (st : OtpStore) (email inputOTP : String) (now : Millis)
    (data : OTPData) : ValidateResult × OtpStore :=
  match data.currentOTP, data.otpGeneratedAt with
  | some currentOTP, some otpGeneratedAt =>
    if OTP_CONFIG.VALIDITY_MS < now - otpGeneratedAt then
      let data1 := { data with
        attempts := data.attempts ++
          [{ otp := inputOTP, timestamp := now, success := false, reason := some "expired" }] }
      ({ valid := false, error := some "Code expired" }, otpStorage.save st email data1)
    else if hasExceededMaxAttempts now data.attempts then
      ({ valid := false, error := some "Too many attempts" }, st)
    else
      let isValid := currentOTP == inputOTP
      let data1 := { data with
        attempts := data.attempts ++
          [{ otp := inputOTP, timestamp := now, success := isValid
             reason := if isValid then none else some "invalid" }]
        currentOTP := if isValid then none else data.currentOTP
        otpGeneratedAt := if isValid then none else data.otpGeneratedAt }
      let st1 := otpStorage.save st email data1
      if isValid then
        ({ valid := true, error := none }, st1)
      else if OTP_CONFIG.MAX_ATTEMPTS ≤ (cleanOldAttempts now data1.attempts).length then
        ({ valid := false, error := some "Too many attempts" }, st1)
      else
        ({ valid := false, error := some "Invalid code" }, st1)
  | _, _ =>
    ({ valid := false, error := some "No OTP found. Please request a new one." }, st)

/-- otpService `validateOTP` at call instant `now`: returns the JS
result object and the otp_data namespace after the call. -/
def validateOTP (st : OtpStore) (email inputOTP : String) (now : Millis) :
    ValidateResult × OtpStore :=
  validateOTPCore st email inputOTP now (getOTPData st email)

/-- A parent account row (parentStorage values). Fields beyond the
identity/timestamps are optional: `completeSignup` writes only
`{email, createdAt, updatedAt}`, while `updateParentProfile` can add
`name` and `skippedProfileSetup`. -/
structure Parent where
  email : String
  name : Option String := none
  skippedProfileSetup : Option Bool := none
  createdAt : Millis
  updatedAt : Millis
deriving DecidableEq, Repr

/-- The `parents` namespace of storageService: a JS object keyed by
lowercased email. -/
abbrev ParentStore := String → Option Parent

namespace parentStorage

/-- `parentStorage.getByEmail`: `parents[email.toLowerCase()] || null`. -/
def getByEmail (st : ParentStore) (email : String) : Option Parent :=
  st (lowerStr email)

/-- `parentStorage.save`: `parents[parent.email.toLowerCase()] = parent`. -/
def save (st : ParentStore) (parent : Parent) : ParentStore :=
  fun k => if k = lowerStr parent.email then some parent else st k

/-- `parentStorage.delete`: `delete parents[email.toLowerCase()]`. -/
def delete (st : ParentStore) (email : String) : ParentStore :=
  fun k => if k = lowerStr email then none else st k

end parentStorage

/-- A session row (sessionStorage values), as created by
`completeSignup` and updated by `refreshSession`. -/
structure Session where
  accessToken : String
  refreshToken : String
  parentEmail : String
  deviceFingerprint : String
  createdAt : Millis
  updatedAt : Option Millis := none
  expiresAt : Millis
deriving DecidableEq, Repr

/-- The `sessions` namespace of storageService: a JS object keyed by the
access token. JS objects preserve key insertion order and
`refreshSession` iterates `Object.values`, so the namespace is an
association list in insertion order. -/
abbrev SessionStore := List (String × Session)

namespace sessionStorage

/-- `sessionStorage.getAll`. -/
def getAll (st : SessionStore) : SessionStore :=
  st

/-- `sessionStorage.getByToken`: `sessions[accessToken] || null`. -/
def getByToken (st : SessionStore) (accessToken : String) : Option Session :=
  (st.find? (fun kv => kv.1 == accessToken)).map (fun kv => kv.2)

/-- JS keyed assignment `sessions[k] = v`: overwrite in place when the
key exists, otherwise append (JS object insertion order). -/
def setKey (st : SessionStore) (k : String) (v : Session) : SessionStore :=
  if st.any (fun kv => kv.1 == k) then
    st.map (fun kv => if kv.1 == k then (k, v) else kv)
  else
    st ++ [(k, v)]

/-- `sessionStorage.save`: `sessions[session.accessToken] = session`. -/
def save (st : SessionStore) (session : Session) : SessionStore :=
  setKey st session.accessToken session

/-- `sessionStorage.delete`: `delete sessions[accessToken]`. -/
def delete (st : SessionStore) (accessToken : String) : SessionStore :=
  st.filter (fun kv => kv.1 != accessToken)

end sessionStorage

/-- Session lifetime used by completeSignup/refreshSession:
`7 * 24 * 60 * 60 * 1000` ms. -/
def SEVEN_DAYS_MS : Millis := 7 * 24 * 60 * 60 * 1000

/-- authService `getSession(accessToken)` at instant `now`: lookup by
access token, lazily deleting an expired row. The source's falsy guard
`if (!accessToken)` is the test for the empty/missing token. Returns
the JS result and the sessions namespace after the call. -/
def getSession (st : SessionStore) (accessToken : String) (now : Millis) :
    Option Session × SessionStore :=
  if accessToken == "" then (none, st)
  else
    match sessionStorage.getByToken st accessToken with
    | none => (none, st)
    | some session =>
      if session.expiresAt < now then (none, sessionStorage.delete st accessToken)
      else (some session, st)

/-- authService `refreshSession(refreshToken)` at instant `now`. The
fresh random tokens produced by `rotateRefreshToken`/`generateTokens`
are the explicit parameters `newAccessToken`/`newRefreshToken`. Scans
`Object.values` of the sessions namespace for the refresh token; on a
match, deletes the old row and saves the updated session under the new
access token. -/
def refreshSession (st : SessionStore) (refreshToken : String) (now : Millis)
    (newAccessToken newRefreshToken : String) : Option Session × SessionStore :=
  if refreshToken == "" then (none, st)
  else
    match (st.map (fun kv => kv.2)).find? (fun s => s.refreshToken == refreshToken) with
    | none => (none, st)
    | some session =>
      let updatedSession := { session with
        accessToken := newAccessToken
        refreshToken := newRefreshToken
        updatedAt := some now
        expiresAt := now + SEVEN_DAYS_MS }
      let st1 := sessionStorage.delete st session.accessToken
      (some updatedSession, sessionStorage.save st1 updatedSession)

/-- One analytics event as recorded by `analyticsStorage.addEvent`
(payload fields used by the auth flows, plus the timestamp the store
appends). -/
structure AnalyticsEvent where
  event : String
  email : String
  reason : Option String := none
  timestamp : Millis
deriving DecidableEq, Repr

/-- The durable state touched by the auth orchestrator: the four
storageService namespaces used by signup. -/
structure AppState where
  parents : ParentStore
  sessions : SessionStore
  otpData : OtpStore
  analytics : List AnalyticsEvent

/-- Result object of `completeSignup`. -/
structure CompleteSignupResult where
  success : Bool
  error : Option String := none
  session : Option Session := none
  parent : Option Parent := none
deriving DecidableEq, Repr

/-- authService `completeSignup(email, otp)` at instant `now`. The
device fingerprint and the fresh token pair (random-derived in the
source) are explicit parameters. Validates the OTP; on failure returns
the OTP error having persisted only the OTP-engine mutation; on success
writes the parent row `{email, createdAt, updatedAt}` and a fresh
session row, and returns both. -/
def completeSignup (st : AppState) (email otp : String) (now : Millis)
    (deviceFingerprint newAccessToken newRefreshToken : String) :
    CompleteSignupResult × AppState :=
  let v := validateOTP st.otpData email otp now
  if v.1.valid then
    let parent : Parent := { email := lowerStr email, createdAt := now, updatedAt := now }
    let parents1 := parentStorage.save st.parents parent
    let session : Session := { accessToken := newAccessToken
                               refreshToken := newRefreshToken
                               parentEmail := lowerStr email
                               deviceFingerprint := deviceFingerprint
                               createdAt := now
                               expiresAt := now + SEVEN_DAYS_MS }
    let sessions1 := sessionStorage.save st.sessions session
    ({ success := true, session := some session, parent := some parent },
      { parents := parents1, sessions := sessions1, otpData := v.2
        analytics := st.analytics ++
          [{ event := "auth_signup_success", email := lowerStr email, timestamp := now }] })
  else
    ({ success := false, error := v.1.error },
      { st with otpData := v.2
                analytics := st.analytics ++
                  [{ event := "auth_signup_failed", email := lowerStr email
                     reason := v.1.error, timestamp := now }] })

namespace storageService

/-- storageService `getItem`: the underlying AsyncStorage read either
yields a stored value (`Except.ok`) or throws (`Except.error`); the
catch branch logs and returns `null`, so a thrown read is
indistinguishable from an absent key. -/
def getItem (raw : Except Unit (Option α)) : Option α :=
  match raw with
  | Except.ok v => v
  | Except.error _ => none

/-- storageService `setItem`: returns `true` when the underlying write
succeeded and `false` when it threw (the catch branch). -/
def setItem (write : Except Unit Unit) : Bool :=
  match write with
  | Except.ok _ => true
  | Except.error _ => false

end storageService

/-- `otpStorage.getAll` over a raw backend read outcome:
`(await storageService.getItem(OTP_DATA)) || {}` — a failed or absent
read silently becomes the empty object. -/
def otpStorage.getAllRaw (raw : Except Unit (Option OtpStore)) : OtpStore :=
  match storageService.getItem raw with
  | some m => m
  | none => fun _ => none

/-- `otpStorage.getByEmail` over a raw backend read outcome. -/
def otpStorage.getByEmailRaw (raw : Except Unit (Option OtpStore)) (email : String) :
    Option OTPData :=
  otpStorage.getAllRaw raw (lowerStr email)

/-- otpService `generateOTPForEmail` against a backend whose persisting
write can fail: `writeOutcome` is the underlying AsyncStorage write
result inside `otpStorage.save`. When the write throws, the stored map
is unchanged and `setItem` returns `false`; the source discards that
Boolean (`await otpStorage.save(email, data)` with no check), so the
returned result object is the same either way. -/
def generateOTPForEmailW (st : OtpStore) (email otp : String) (now : Millis)
    (writeOutcome : Except Unit Unit) : GenResult × OtpStore :=
  let data := getOTPData st email
  if hasExceededMaxAttempts now data.attempts then
    ({ success := false, error := some "Too many attempts. Please try again later." }, st)
  else
    let data1 := { data with currentOTP := some otp, otpGeneratedAt := some now }
    let saveResult := storageService.setItem writeOutcome
    let st1 := if saveResult then otpStorage.save st email data1 else st
    ({ success := true, otp := some otp, expiresAt := some (now + OTP_CONFIG.VALIDITY_MS) }, st1)

/-- A sequence of `generateOTPForEmail` calls for one email (code and
instant per call), with no intervening verification calls; returns
whether every call succeeded, and the final store. -/
def requestCodes (st : OtpStore) (email : String) :
    List (String × Millis) → Bool × OtpStore
  | [] => (true, st)
  | q :: rest =>
    let r := generateOTPForEmail st email q.1 q.2
    let b := requestCodes r.2 email rest
    (r.1.success && b.1, b.2)

/-! ### Helper lemmas -/

/-- `Char.ofNat` at a valid codepoint round-trips through `toNat`. -/
lemma char_toNat_ofNat_valid {n : Nat} (h : n.isValidChar) : (Char.ofNat n).toNat = n := by
  rw [Char.ofNat, dif_pos h]
  rfl

/-- Basic-latin lowering is idempotent on characters. -/
lemma char_toLower_idem (c : Char) : (Char.toLower c).toLower = Char.toLower c := by
  unfold Char.toLower
  by_cases h : c.toNat ≥ 65 ∧ c.toNat ≤ 90
  · rw [if_pos h]
    have hv : Nat.isValidChar (c.toNat + 32) := Or.inl (by omega)
    have ht : (Char.ofNat (c.toNat + 32)).toNat = c.toNat + 32 := char_toNat_ofNat_valid hv
    rw [ht, if_neg (by omega)]
  · rw [if_neg h, if_neg h]

/-- Lowercasing an email key is idempotent. -/
lemma lowerStr_idem (s : String) : lowerStr (lowerStr s) = lowerStr s := by
  have h : Char.toLower ∘ Char.toLower = Char.toLower := funext char_toLower_idem
  simp only [lowerStr, List.map_map, h]

/-- Reading the otp_data namespace after a save: a hit at any spelling
with the same lowercase form, otherwise the old store. -/
lemma otp_getByEmail_save (st : OtpStore) (e1 e2 : String) (d : OTPData) :
    otpStorage.getByEmail (otpStorage.save st e1 d) e2
      = if lowerStr e2 = lowerStr e1 then some d else otpStorage.getByEmail st e2 := by
  simp only [otpStorage.getByEmail, otpStorage.save]

/-- Reading the parents namespace after a save. -/
lemma parent_getByEmail_save (st : ParentStore) (p : Parent) (e2 : String) :
    parentStorage.getByEmail (parentStorage.save st p) e2
      = if lowerStr e2 = lowerStr p.email then some p else parentStorage.getByEmail st e2 := by
  simp only [parentStorage.getByEmail, parentStorage.save]

/-- `getOTPData` after a save of the same email returns the saved data. -/
lemma getOTPData_save_self (st : OtpStore) (e : String) (d : OTPData) :
    getOTPData (otpStorage.save st e d) e = d := by
  simp [getOTPData, otp_getByEmail_save]

/-- The rolling-window attempt count never grows as the clock advances
over a fixed attempts list. -/
lemma cleanOldAttempts_length_mono (l : List Attempt) {t0 t : Millis} (h : t0 ≤ t) :
    (cleanOldAttempts t l).length ≤ (cleanOldAttempts t0 l).length := by
  unfold cleanOldAttempts
  refine List.Sublist.length_le (List.monotone_filter_right l ?_)
  intro a ha
  simp only [decide_eq_true_eq] at ha ⊢
  linarith

/-- Rebuilding an OTP record from its fields. -/
lemma OTPData_eta (d : OTPData) :
    ({ email := d.email, attempts := d.attempts, currentOTP := d.currentOTP
       otpGeneratedAt := d.otpGeneratedAt } : OTPData) = d := rfl

/-- `validateOTP` body, NotFound branch: no current code. -/
lemma validateOTPCore_noCode (st : OtpStore) (email input : String) (now : Millis)
    (em : String) (atts : List Attempt) (g : Option Millis) :
    validateOTPCore st email input now
        { email := em, attempts := atts, currentOTP := none, otpGeneratedAt := g }
      = ({ valid := false, error := some "No OTP found. Please request a new one." }, st) := rfl

/-- `validateOTP` body, NotFound branch: no generation instant. -/
lemma validateOTPCore_noGen (st : OtpStore) (email input : String) (now : Millis)
    (em : String) (atts : List Attempt) (c : Option String) :
    validateOTPCore st email input now
        { email := em, attempts := atts, currentOTP := c, otpGeneratedAt := none }
      = ({ valid := false, error := some "No OTP found. Please request a new one." }, st) := by
  cases c <;> rfl

/-- `validateOTP` body, expired branch: the failed attempt is appended
with reason "expired" and persisted, with no cap re-check. -/
lemma validateOTPCore_expired (st : OtpStore) (email input : String) (now : Millis)
    (em : String) (atts : List Attempt) (cur : String) (gen : Millis)
    (hex : OTP_CONFIG.VALIDITY_MS < now - gen) :
    validateOTPCore st email input now
        { email := em, attempts := atts, currentOTP := some cur, otpGeneratedAt := some gen }
      = ({ valid := false, error := some "Code expired" },
         otpStorage.save st email
           { email := em
             attempts := atts ++
               [{ otp := input, timestamp := now, success := false, reason := some "expired" }]
             currentOTP := some cur, otpGeneratedAt := some gen }) := by
  simp only [validateOTPCore]
  rw [if_pos hex]

/-- `validateOTP` body, pre-validation throttle branch: the cap is
already met, nothing is appended and nothing is persisted. -/
lemma validateOTPCore_throttledPre (st : OtpStore) (email input : String) (now : Millis)
    (em : String) (atts : List Attempt) (cur : String) (gen : Millis)
    (hex : ¬ OTP_CONFIG.VALIDITY_MS < now - gen)
    (hth : hasExceededMaxAttempts now atts = true) :
    validateOTPCore st email input now
        { email := em, attempts := atts, currentOTP := some cur, otpGeneratedAt := some gen }
      = ({ valid := false, error := some "Too many attempts" }, st) := by
  simp only [validateOTPCore]
  rw [if_neg hex, if_pos hth]

/-- `validateOTP` body, success branch: the successful attempt is
appended and the live code and its instant are cleared in the same
persisted record. -/
lemma validateOTPCore_success (st : OtpStore) (email input : String) (now : Millis)
    (em : String) (atts : List Attempt) (cur : String) (gen : Millis)
    (hex : ¬ OTP_CONFIG.VALIDITY_MS < now - gen)
    (hth : hasExceededMaxAttempts now atts = false)
    (hv : cur = input) :
    validateOTPCore st email input now
        { email := em, attempts := atts, currentOTP := some cur, otpGeneratedAt := some gen }
      = ({ valid := true, error := none },
         otpStorage.save st email
           { email := em
             attempts := atts ++
               [{ otp := input, timestamp := now, success := true, reason := none }]
             currentOTP := none, otpGeneratedAt := none }) := by
  simp only [validateOTPCore]
  rw [if_neg hex, hth]
  subst hv
  simp only [beq_self_eq_true, if_true, Bool.false_eq_true, if_false]

/-- `validateOTP` body, invalid branch: the failed attempt is appended
with reason "invalid" and persisted, and the returned error is the
post-append cap re-check (Throttled when the cap is now met, otherwise
Invalid). -/
lemma validateOTPCore_invalid (st : OtpStore) (email input : String) (now : Millis)
    (em : String) (atts : List Attempt) (cur : String) (gen : Millis)
    (hex : ¬ OTP_CONFIG.VALIDITY_MS < now - gen)
    (hth : hasExceededMaxAttempts now atts = false)
    (hv : cur ≠ input) :
    validateOTPCore st email input now
        { email := em, attempts := atts, currentOTP := some cur, otpGeneratedAt := some gen }
      = ({ valid := false
           error := if OTP_CONFIG.MAX_ATTEMPTS ≤
               (cleanOldAttempts now (atts ++
                 [{ otp := input, timestamp := now, success := false
                    reason := some "invalid" }])).length
             then some "Too many attempts" else some "Invalid code" },
         otpStorage.save st email
           { email := em
             attempts := atts ++
               [{ otp := input, timestamp := now, success := false, reason := some "invalid" }]
             currentOTP := some cur, otpGeneratedAt := some gen }) := by
  simp only [validateOTPCore]
  rw [if_neg hex, hth]
  have hb : (cur == input) = false := by
    simp only [beq_eq_false_iff_ne, ne_eq]
    exact hv
  rw [hb]
  simp only [Bool.false_eq_true, if_false]
  split
  · rfl
  · rfl

/-- A record hypothesis pair rebuilds `getOTPData` as a constructor. -/
lemma getOTPData_eq_mk {st : OtpStore} {email : String} {cur : String} {gen : Millis}
    (hc : (getOTPData st email).currentOTP = some cur)
    (hg : (getOTPData st email).otpGeneratedAt = some gen) :
    getOTPData st email
      = { email := (getOTPData st email).email
          attempts := (getOTPData st email).attempts
          currentOTP := some cur, otpGeneratedAt := some gen } := by
  rw [← hc, ← hg]

/-- Unfolding `validateOTP` to its body. -/
lemma validateOTP_eq_core (st : OtpStore) (email input : String) (now : Millis) :
    validateOTP st email input now
      = validateOTPCore st email input now (getOTPData st email) := rfl

/-! ### Claim theorems -/

/-- C9: with a live code generated at `gen` (validity window 10
minutes), `verifyCode` at exactly `gen + 10min + 1ms` returns Expired
and appends a failed attempt with reason "expired", while `verifyCode`
at `gen + 10min − 1ms` is not rejected as Expired. -/
theorem c9_expiry_boundary (st : OtpStore) (email input : String) (cur : String) (gen : Millis)
    (hc : (getOTPData st email).currentOTP = some cur)
    (hg : (getOTPData st email).otpGeneratedAt = some gen) :
    ((validateOTP st email input (gen + OTP_CONFIG.VALIDITY_MS + 1)).1
        = { valid := false, error := some "Code expired" }
      ∧ (getOTPData (validateOTP st email input (gen + OTP_CONFIG.VALIDITY_MS + 1)).2 email).attempts
        = (getOTPData st email).attempts ++
            [{ otp := input, timestamp := gen + OTP_CONFIG.VALIDITY_MS + 1, success := false
               reason := some "expired" }])
    ∧ (validateOTP st email input (gen + OTP_CONFIG.VALIDITY_MS - 1)).1.error
        ≠ some "Code expired" := by
  have hd := getOTPData_eq_mk hc hg
  have hex1 : OTP_CONFIG.VALIDITY_MS < (gen + OTP_CONFIG.VALIDITY_MS + 1) - gen := by linarith
  have hex2 : ¬ OTP_CONFIG.VALIDITY_MS < (gen + OTP_CONFIG.VALIDITY_MS - 1) - gen := by linarith
  refine ⟨⟨?_, ?_⟩, ?_⟩
  · rw [validateOTP_eq_core, hd, validateOTPCore_expired _ _ _ _ _ _ _ _ hex1]
  · rw [validateOTP_eq_core, hd, validateOTPCore_expired _ _ _ _ _ _ _ _ hex1]
    rw [getOTPData_save_self]
  · rw [validateOTP_eq_core, hd]
    by_cases hth : hasExceededMaxAttempts (gen + OTP_CONFIG.VALIDITY_MS - 1)
        (getOTPData st email).attempts
    · rw [validateOTPCore_throttledPre _ _ _ _ _ _ _ _ hex2 hth]
      simp
    · by_cases hv : cur = input
      · rw [validateOTPCore_success _ _ _ _ _ _ _ _ hex2 (Bool.eq_false_iff.mpr hth) hv]
        simp
      · rw [validateOTPCore_invalid _ _ _ _ _ _ _ _ hex2 (Bool.eq_false_iff.mpr hth) hv]
        split
        · simp
        · simp

/-- Concrete store for the C9 witness: one live code for one email. -/
def stC9 : OtpStore :=
  otpStorage.save (fun _ => none) "c9@x.io"
    { email := "c9@x.io", attempts := [], currentOTP := some "123456", otpGeneratedAt := some 0 }

/-- C9 witness: the boundary theorem applied at a concrete store. -/
theorem c9_expiry_boundary_witness :
    (getOTPData stC9 "c9@x.io").currentOTP = some "123456"
    ∧ (getOTPData stC9 "c9@x.io").otpGeneratedAt = some 0
    ∧ (validateOTP stC9 "c9@x.io" "000000" (0 + OTP_CONFIG.VALIDITY_MS + 1)).1
        = { valid := false, error := some "Code expired" } :=
  ⟨rfl, rfl, (c9_expiry_boundary stC9 "c9@x.io" "000000" "123456" 0 rfl rfl).1.1⟩

/-- Concrete store for C2: a live unexpired code whose email already
has five attempts inside the rolling window. -/
def stC2 : OtpStore :=
  otpStorage.save (fun _ => none) "c2@x.io"
    { email := "c2@x.io"
      attempts :=
        [{ otp := "111111", timestamp := 1, success := false, reason := some "invalid" },
         { otp := "111112", timestamp := 2, success := false, reason := some "invalid" },
         { otp := "111113", timestamp := 3, success := false, reason := some "invalid" },
         { otp := "111114", timestamp := 4, success := false, reason := some "invalid" },
         { otp := "111115", timestamp := 5, success := false, reason := some "invalid" }]
      currentOTP := some "123456", otpGeneratedAt := some 1 }

/-- C2 counterexample: a `verifyCode` call whose outcome is Throttled
(from the pre-validation cap check) appends no attempt record — the
store is returned unchanged and the attempt list still has length 5,
refuting "every outcome except NotFound appends an attempt record". -/
theorem c2_counterexample :
    (validateOTP stC2 "c2@x.io" "123456" 100).1
        = { valid := false, error := some "Too many attempts" }
    ∧ (validateOTP stC2 "c2@x.io" "123456" 100).2 = stC2
    ∧ (getOTPData stC2 "c2@x.io").attempts.length = 5 :=
  ⟨rfl, rfl, rfl⟩

/-- C2 amended: `verifyCode` appends an attempt record
{submitted, now, success, reason} for every outcome except NotFound and
except the Throttled outcome produced by the pre-validation cap check,
which performs no mutation at all (Throttled produced by the post-append
upgrade does append, under the attempt's own reason). -/
theorem c2_attempt_append (st : OtpStore) (email input : String) (now : Millis) :
    (((getOTPData st email).currentOTP = none ∨ (getOTPData st email).otpGeneratedAt = none) →
       validateOTP st email input now
         = ({ valid := false, error := some "No OTP found. Please request a new one." }, st))
    ∧ (∀ cur gen, (getOTPData st email).currentOTP = some cur →
        (getOTPData st email).otpGeneratedAt = some gen →
        ¬ OTP_CONFIG.VALIDITY_MS < now - gen →
        hasExceededMaxAttempts now (getOTPData st email).attempts = true →
        validateOTP st email input now = ({ valid := false, error := some "Too many attempts" }, st))
    ∧ (∀ cur gen, (getOTPData st email).currentOTP = some cur →
        (getOTPData st email).otpGeneratedAt = some gen →
        OTP_CONFIG.VALIDITY_MS < now - gen →
        (getOTPData (validateOTP st email input now).2 email).attempts
          = (getOTPData st email).attempts ++
              [{ otp := input, timestamp := now, success := false, reason := some "expired" }])
    ∧ (∀ cur gen, (getOTPData st email).currentOTP = some cur →
        (getOTPData st email).otpGeneratedAt = some gen →
        ¬ OTP_CONFIG.VALIDITY_MS < now - gen →
        hasExceededMaxAttempts now (getOTPData st email).attempts = false →
        (getOTPData (validateOTP st email input now).2 email).attempts
          = (getOTPData st email).attempts ++
              [{ otp := input, timestamp := now, success := cur == input
                 reason := if cur == input then none else some "invalid" }]) := by
  refine ⟨?_, ?_, ?_, ?_⟩
  · rintro (h | h)
    · have hd : getOTPData st email
          = { email := (getOTPData st email).email, attempts := (getOTPData st email).attempts
              currentOTP := none, otpGeneratedAt := (getOTPData st email).otpGeneratedAt } := by
        rw [← h]
      rw [validateOTP_eq_core, hd, validateOTPCore_noCode]
    · have hd : getOTPData st email
          = { email := (getOTPData st email).email, attempts := (getOTPData st email).attempts
              currentOTP := (getOTPData st email).currentOTP, otpGeneratedAt := none } := by
        rw [← h]
      rw [validateOTP_eq_core, hd, validateOTPCore_noGen]
  · intro cur gen hc hg hex hth
    rw [validateOTP_eq_core, getOTPData_eq_mk hc hg,
      validateOTPCore_throttledPre _ _ _ _ _ _ _ _ hex hth]
  · intro cur gen hc hg hex
    rw [validateOTP_eq_core, getOTPData_eq_mk hc hg,
      validateOTPCore_expired _ _ _ _ _ _ _ _ hex, getOTPData_save_self]
  · intro cur gen hc hg hex hth
    by_cases hv : cur = input
    · rw [validateOTP_eq_core, getOTPData_eq_mk hc hg,
        validateOTPCore_success _ _ _ _ _ _ _ _ hex hth hv, getOTPData_save_self]
      subst hv
      simp only [beq_self_eq_true, if_true]
    · rw [validateOTP_eq_core, getOTPData_eq_mk hc hg,
        validateOTPCore_invalid _ _ _ _ _ _ _ _ hex hth hv, getOTPData_save_self]
      have hb : (cur == input) = false := by
        simp only [beq_eq_false_iff_ne, ne_eq]
        exact hv
      simp only [hb, Bool.false_eq_true, if_false]

/-- C2 witness: the amended theorem's throttled conjunct applied at a
concrete store, showing the pre-validation Throttled outcome leaves the
store untouched. -/
theorem c2_attempt_append_witness :
    (getOTPData stC2 "c2@x.io").currentOTP = some "123456"
    ∧ (getOTPData stC2 "c2@x.io").otpGeneratedAt = some 1
    ∧ hasExceededMaxAttempts 100 (getOTPData stC2 "c2@x.io").attempts = true
    ∧ validateOTP stC2 "c2@x.io" "999999" 100
        = ({ valid := false, error := some "Too many attempts" }, stC2) :=
  ⟨rfl, rfl, by decide,
    (c2_attempt_append stC2 "c2@x.io" "999999" 100).2.1 "123456" 1 rfl rfl
      (by decide) (by decide)⟩

/-- Concrete store for C3: a live code generated at instant 1 whose
email has four attempts inside the rolling window. -/
def stC3 : OtpStore :=
  otpStorage.save (fun _ => none) "c3@x.io"
    { email := "c3@x.io"
      attempts :=
        [{ otp := "111111", timestamp := 1, success := false, reason := some "invalid" },
         { otp := "111112", timestamp := 2, success := false, reason := some "invalid" },
         { otp := "111113", timestamp := 3, success := false, reason := some "invalid" },
         { otp := "111114", timestamp := 4, success := false, reason := some "invalid" }]
      currentOTP := some "123456", otpGeneratedAt := some 1 }

/-- C3 counterexample: a failing `verifyCode` whose recorded reason is
"expired" and whose append brings the rolling-window count up to the
cap of 5 still returns "Code expired", not "Too many attempts" — the
expired branch never re-checks the cap, refuting the claim for the
"expired" case. -/
theorem c3_counterexample :
    (validateOTP stC3 "c3@x.io" "999999" 600002).1.error = some "Code expired"
    ∧ OTP_CONFIG.MAX_ATTEMPTS ≤
        (cleanOldAttempts 600002
          (getOTPData (validateOTP stC3 "c3@x.io" "999999" 600002).2 "c3@x.io").attempts).length
    ∧ (getOTPData (validateOTP stC3 "c3@x.io" "999999" 600002).2 "c3@x.io").attempts.getLast?
        = some { otp := "999999", timestamp := 600002, success := false
                 reason := some "expired" } :=
  ⟨rfl, by decide, rfl⟩

/-- C3 amended: only `verifyCode` failures recorded with reason
"invalid" trigger the post-append cap re-check: when the cap of 5 is
met after the append, the call returns Throttled while the attempt
record keeps reason "invalid". Failures recorded with reason "expired"
return Expired directly, with no re-check. -/
theorem c3_post_append_recheck (st : OtpStore) (email input : String) (now : Millis)
    (cur : String) (gen : Millis)
    (hc : (getOTPData st email).currentOTP = some cur)
    (hg : (getOTPData st email).otpGeneratedAt = some gen) :
    (OTP_CONFIG.VALIDITY_MS < now - gen →
       (validateOTP st email input now).1 = { valid := false, error := some "Code expired" })
    ∧ (¬ OTP_CONFIG.VALIDITY_MS < now - gen →
       hasExceededMaxAttempts now (getOTPData st email).attempts = false →
       cur ≠ input →
       OTP_CONFIG.MAX_ATTEMPTS ≤
         (cleanOldAttempts now ((getOTPData st email).attempts ++
           [{ otp := input, timestamp := now, success := false
              reason := some "invalid" }])).length →
       (validateOTP st email input now).1 = { valid := false, error := some "Too many attempts" }
       ∧ (getOTPData (validateOTP st email input now).2 email).attempts
           = (getOTPData st email).attempts ++
               [{ otp := input, timestamp := now, success := false
                  reason := some "invalid" }]) := by
  constructor
  · intro hex
    rw [validateOTP_eq_core, getOTPData_eq_mk hc hg,
      validateOTPCore_expired _ _ _ _ _ _ _ _ hex]
  · intro hex hth hv hcap
    rw [validateOTP_eq_core, getOTPData_eq_mk hc hg,
      validateOTPCore_invalid _ _ _ _ _ _ _ _ hex hth hv, getOTPData_save_self]
    exact ⟨by rw [if_pos hcap], rfl⟩

/-- C3 witness: the amended theorem applied at a concrete store where a
wrong code is the fifth in-window attempt. -/
theorem c3_post_append_recheck_witness :
    (getOTPData stC3 "c3@x.io").currentOTP = some "123456"
    ∧ hasExceededMaxAttempts 100 (getOTPData stC3 "c3@x.io").attempts = false
    ∧ (validateOTP stC3 "c3@x.io" "999999" 100).1
        = { valid := false, error := some "Too many attempts" } :=
  ⟨rfl, by decide,
    ((c3_post_append_recheck stC3 "c3@x.io" "999999" 100 "123456" 1 rfl rfl).2
      (by decide) (by decide) (by decide) (by decide)).1⟩

/-- Reading any email after a save: the saved record on a lowercase
match, otherwise the old read. -/
lemma getOTPData_save (st : OtpStore) (e1 e2 : String) (d : OTPData) :
    getOTPData (otpStorage.save st e1 d) e2
      = if lowerStr e2 = lowerStr e1 then d else getOTPData st e2 := by
  by_cases h : lowerStr e2 = lowerStr e1
  · simp only [getOTPData, otp_getByEmail_save, if_pos h]
  · simp only [getOTPData, otp_getByEmail_save, if_neg h]

/-- `getOTPData` only depends on the lowercase form of the email. -/
lemma getOTPData_congr (st : OtpStore) {e1 e2 : String} (h : lowerStr e1 = lowerStr e2) :
    getOTPData st e1 = getOTPData st e2 := by
  simp only [getOTPData, otpStorage.getByEmail, h]

/-- `generateOTPForEmail` never touches any attempts list: it only
writes the live code and its instant. -/
lemma generateOTPForEmail_attempts (st : OtpStore) (email otp : String) (now : Millis)
    (e2 : String) :
    (getOTPData (generateOTPForEmail st email otp now).2 e2).attempts
      = (getOTPData st e2).attempts := by
  by_cases hth : hasExceededMaxAttempts now (getOTPData st email).attempts = true
  · simp [generateOTPForEmail, hth]
  · rw [Bool.not_eq_true] at hth
    simp only [generateOTPForEmail, hth, Bool.false_eq_true, if_false]
    rw [getOTPData_save]
    split
    · rename_i h
      rw [getOTPData_congr st h]
    · rfl

/-- `generateOTPForEmail` succeeds exactly when the rolling-window
count is below the cap at call time. -/
lemma generateOTPForEmail_success_iff (st : OtpStore) (email otp : String) (now : Millis) :
    (generateOTPForEmail st email otp now).1.success = true
      ↔ ¬ OTP_CONFIG.MAX_ATTEMPTS ≤ (cleanOldAttempts now (getOTPData st email).attempts).length := by
  by_cases hth : hasExceededMaxAttempts now (getOTPData st email).attempts = true
  · simp only [generateOTPForEmail, hth, if_pos]
    simp only [hasExceededMaxAttempts, decide_eq_true_eq] at hth
    simp [hth]
  · have hcap : ¬ OTP_CONFIG.MAX_ATTEMPTS
        ≤ (cleanOldAttempts now (getOTPData st email).attempts).length := by
      simpa [hasExceededMaxAttempts] using hth
    rw [Bool.not_eq_true] at hth
    simp [generateOTPForEmail, hth, hcap]

/-- C4: `requestCode` fails with the throttled error and performs no
mutation exactly when the rolling-window attempt count is at the cap at
call time; it never adds attempt records, so any run of `requestCode`
calls at or after an instant where the count is below the cap, with no
intervening `verifyCode` calls, succeeds in every call. -/
theorem c4_requestCode_throttle :
    (∀ (st : OtpStore) (email otp : String) (now : Millis),
       ((generateOTPForEmail st email otp now).1.success = false
          ∧ (generateOTPForEmail st email otp now).1.error
              = some "Too many attempts. Please try again later."
          ∧ (generateOTPForEmail st email otp now).2 = st)
        ↔ OTP_CONFIG.MAX_ATTEMPTS ≤ (cleanOldAttempts now (getOTPData st email).attempts).length)
    ∧ (∀ (st : OtpStore) (email otp : String) (now : Millis) (e2 : String),
        (getOTPData (generateOTPForEmail st email otp now).2 e2).attempts
          = (getOTPData st e2).attempts)
    ∧ (∀ (st : OtpStore) (email : String) (t0 : Millis) (reqs : List (String × Millis)),
        (cleanOldAttempts t0 (getOTPData st email).attempts).length < OTP_CONFIG.MAX_ATTEMPTS →
        (∀ q ∈ reqs, t0 ≤ q.2) →
        (requestCodes st email reqs).1 = true) := by
  refine ⟨?_, generateOTPForEmail_attempts, ?_⟩
  · intro st email otp now
    by_cases hth : hasExceededMaxAttempts now (getOTPData st email).attempts = true
    · have hcap : OTP_CONFIG.MAX_ATTEMPTS
          ≤ (cleanOldAttempts now (getOTPData st email).attempts).length := by
        simpa [hasExceededMaxAttempts] using hth
      simp [generateOTPForEmail, hth, hcap]
    · have hcap : ¬ OTP_CONFIG.MAX_ATTEMPTS
          ≤ (cleanOldAttempts now (getOTPData st email).attempts).length := by
        simpa [hasExceededMaxAttempts] using hth
      rw [Bool.not_eq_true] at hth
      simp [generateOTPForEmail, hth, hcap]
  · intro st email t0 reqs
    induction reqs generalizing st with
    | nil => intro _ _; rfl
    | cons q rest ih =>
      intro hcount hq
      have ht0 : t0 ≤ q.2 := hq q (List.mem_cons_self q rest)
      have hle : (cleanOldAttempts q.2 (getOTPData st email).attempts).length
          ≤ (cleanOldAttempts t0 (getOTPData st email).attempts).length :=
        cleanOldAttempts_length_mono _ ht0
      have hsucc : (generateOTPForEmail st email q.1 q.2).1.success = true := by
        rw [generateOTPForEmail_success_iff]
        omega
      have hnext : (cleanOldAttempts t0
          (getOTPData (generateOTPForEmail st email q.1 q.2).2 email).attempts).length
          < OTP_CONFIG.MAX_ATTEMPTS := by
        rw [generateOTPForEmail_attempts]
        exact hcount
      simp only [requestCodes, Bool.and_eq_true]
      exact ⟨hsucc, ih _ hnext (fun r hr => hq r (List.mem_cons_of_mem q hr))⟩

/-- C4 witness: six `requestCode` calls within one hour on a fresh
email all succeed (no verification attempts intervene). -/
theorem c4_requestCode_throttle_witness :
    (cleanOldAttempts 0 (getOTPData (fun _ => none) "c4@x.io").attempts).length
        < OTP_CONFIG.MAX_ATTEMPTS
    ∧ (requestCodes (fun _ => none) "c4@x.io"
        [("100000", 1), ("200000", 2), ("300000", 3),
         ("400000", 4), ("500000", 5), ("600000", 6)]).1 = true :=
  ⟨by decide,
    c4_requestCode_throttle.2.2 (fun _ => none) "c4@x.io" 0
      [("100000", 1), ("200000", 2), ("300000", 3),
       ("400000", 4), ("500000", 5), ("600000", 6)]
      (by decide) (by decide)⟩

/-- The otp_data namespace after a successful `generateOTPForEmail`:
the loaded record with the fresh live code and its instant. -/
lemma generateOTPForEmail_state (st : OtpStore) (email otp : String) (now : Millis)
    (hth : hasExceededMaxAttempts now (getOTPData st email).attempts = false) :
    (generateOTPForEmail st email otp now).2
      = otpStorage.save st email
          { email := (getOTPData st email).email
            attempts := (getOTPData st email).attempts
            currentOTP := some otp, otpGeneratedAt := some now } := by
  simp [generateOTPForEmail, hth]

/-- The Boolean cap check, read as the window count proposition. -/
lemma hasExceededMaxAttempts_eq_false_iff (now : Millis) (l : List Attempt) :
    hasExceededMaxAttempts now l = false
      ↔ (cleanOldAttempts now l).length < OTP_CONFIG.MAX_ATTEMPTS := by
  unfold hasExceededMaxAttempts
  rw [decide_eq_false_iff_not, Nat.not_le]

/-- C6: verifying the code just returned by `requestCode` succeeds
exactly once; the success clears the live code and its generation
instant in the same persisted record that carries the appended
successful attempt, and any later `verifyCode` for that email returns
NotFound. -/
theorem c6_code_single_use (st : OtpStore) (email otp : String) (t0 t1 : Millis)
    (hsucc : (generateOTPForEmail st email otp t0).1.success = true)
    (h01 : t0 ≤ t1)
    (hval : t1 - t0 ≤ OTP_CONFIG.VALIDITY_MS) :
    (validateOTP (generateOTPForEmail st email otp t0).2 email otp t1).1
        = { valid := true, error := none }
    ∧ (getOTPData (validateOTP (generateOTPForEmail st email otp t0).2 email otp t1).2 email)
        = { email := (getOTPData st email).email
            attempts := (getOTPData st email).attempts ++
              [{ otp := otp, timestamp := t1, success := true, reason := none }]
            currentOTP := none, otpGeneratedAt := none }
    ∧ ∀ (input2 : String) (t2 : Millis),
        (validateOTP (validateOTP (generateOTPForEmail st email otp t0).2 email otp t1).2
            email input2 t2).1
          = { valid := false, error := some "No OTP found. Please request a new one." } := by
  have hth0 : hasExceededMaxAttempts t0 (getOTPData st email).attempts = false := by
    rw [hasExceededMaxAttempts_eq_false_iff]
    have h := (generateOTPForEmail_success_iff st email otp t0).mp hsucc
    omega
  have hcount0 : (cleanOldAttempts t0 (getOTPData st email).attempts).length
      < OTP_CONFIG.MAX_ATTEMPTS := (hasExceededMaxAttempts_eq_false_iff _ _).mp hth0
  have hth1 : hasExceededMaxAttempts t1 (getOTPData st email).attempts = false := by
    rw [hasExceededMaxAttempts_eq_false_iff]
    have hm := cleanOldAttempts_length_mono (getOTPData st email).attempts h01
    omega
  have hex : ¬ OTP_CONFIG.VALIDITY_MS < t1 - t0 := by linarith
  have hstate := generateOTPForEmail_state st email otp t0 hth0
  have hload : getOTPData (generateOTPForEmail st email otp t0).2 email
      = { email := (getOTPData st email).email
          attempts := (getOTPData st email).attempts
          currentOTP := some otp, otpGeneratedAt := some t0 } := by
    rw [hstate, getOTPData_save_self]
  have hfirst : validateOTP (generateOTPForEmail st email otp t0).2 email otp t1
      = ({ valid := true, error := none },
         otpStorage.save (generateOTPForEmail st email otp t0).2 email
           { email := (getOTPData st email).email
             attempts := (getOTPData st email).attempts ++
               [{ otp := otp, timestamp := t1, success := true, reason := none }]
             currentOTP := none, otpGeneratedAt := none }) := by
    rw [validateOTP_eq_core, hload, validateOTPCore_success _ _ _ _ _ _ _ _ hex hth1 rfl]
  refine ⟨by rw [hfirst], ?_, ?_⟩
  · rw [hfirst, getOTPData_save_self]
  · intro input2 t2
    have hload2 : getOTPData
        (validateOTP (generateOTPForEmail st email otp t0).2 email otp t1).2 email
        = { email := (getOTPData st email).email
            attempts := (getOTPData st email).attempts ++
              [{ otp := otp, timestamp := t1, success := true, reason := none }]
            currentOTP := none, otpGeneratedAt := none } := by
      rw [hfirst, getOTPData_save_self]
    rw [validateOTP_eq_core, hload2, validateOTPCore_noCode]

/-- C6 witness: the single-use theorem applied on a fresh store. -/
theorem c6_code_single_use_witness :
    (generateOTPForEmail (fun _ => none) "c6@x.io" "123456" 0).1.success = true
    ∧ (0 : Millis) ≤ 1
    ∧ (1 - 0 : Millis) ≤ OTP_CONFIG.VALIDITY_MS
    ∧ (validateOTP (validateOTP
          (generateOTPForEmail (fun _ => none) "c6@x.io" "123456" 0).2
          "c6@x.io" "123456" 1).2 "c6@x.io" "123456" 2).1
        = { valid := false, error := some "No OTP found. Please request a new one." } :=
  ⟨rfl, by decide, by decide,
    (c6_code_single_use (fun _ => none) "c6@x.io" "123456" 0 1 rfl (by decide) (by decide)).2.2
      "123456" 2⟩

/-- Deleting a key removes it from token lookup. -/
lemma getByToken_delete_self (st : SessionStore) (k : String) :
    sessionStorage.getByToken (sessionStorage.delete st k) k = none := by
  have h : (st.filter (fun kv => kv.1 != k)).find? (fun kv => kv.1 == k) = none := by
    rw [List.find?_eq_none]
    intro x hx
    have hne := (List.mem_filter.mp hx).2
    simp only [bne_iff_ne, ne_eq] at hne
    simp [hne]
  simp [sessionStorage.getByToken, sessionStorage.delete, h]

/-- In-place keyed overwrite leaves lookups of other keys unchanged. -/
lemma find?_map_setKey (l : List (String × Session)) (k k' : String) (v : Session)
    (h : k' ≠ k) :
    (l.map (fun kv => if kv.1 == k then (k, v) else kv)).find? (fun kv => kv.1 == k')
      = l.find? (fun kv => kv.1 == k') := by
  induction l with
  | nil => rfl
  | cons kv tl ih =>
    simp only [List.map_cons]
    by_cases hk : (kv.1 == k) = true
    · rw [if_pos hk]
      have hkv : kv.1 = k := by simpa using hk
      have hp1 : ((k, v).1 == k') = false := by simp [Ne.symm h]
      have hp2 : (kv.1 == k') = false := by simp [hkv, Ne.symm h]
      simp only [List.find?_cons, hp1, hp2, ih]
    · rw [if_neg hk]
      by_cases hp : (kv.1 == k') = true
      · simp only [List.find?_cons, hp]
      · rw [Bool.not_eq_true] at hp
        simp only [List.find?_cons, hp, ih]

/-- In-place keyed overwrite at a key that is present: lookup of that
key returns the overwriting value. -/
lemma find?_map_setKey_self (l : List (String × Session)) (k : String) (v : Session)
    (hany : l.any (fun kv => kv.1 == k) = true) :
    (l.map (fun kv => if kv.1 == k then (k, v) else kv)).find? (fun kv => kv.1 == k)
      = some (k, v) := by
  induction l with
  | nil => simp at hany
  | cons kv tl ih =>
    simp only [List.map_cons]
    by_cases hk : (kv.1 == k) = true
    · rw [if_pos hk]
      have hp : ((k, v).1 == k) = true := by simp
      simp only [List.find?_cons, hp]
    · rw [if_neg hk]
      rw [Bool.not_eq_true] at hk
      simp only [List.find?_cons, hk]
      apply ih
      simp only [List.any_cons, hk, Bool.false_or] at hany
      exact hany

/-- `sessions[k] = v` then lookup of a different key: unchanged. -/
lemma getByToken_setKey_ne (st : SessionStore) (k k' : String) (v : Session)
    (h : k' ≠ k) :
    sessionStorage.getByToken (sessionStorage.setKey st k v) k'
      = sessionStorage.getByToken st k' := by
  unfold sessionStorage.getByToken sessionStorage.setKey
  by_cases hany : (st.any (fun kv => kv.1 == k)) = true
  · rw [if_pos hany, find?_map_setKey st k k' v h]
  · rw [if_neg hany, List.find?_append]
    have hone : ([(k, v)].find? (fun kv => kv.1 == k')) = none := by
      simp [Ne.symm h]
    rw [hone]
    cases st.find? (fun kv => kv.1 == k') <;> rfl

/-- `sessions[k] = v` then lookup of `k`: the new value. -/
lemma getByToken_setKey_self (st : SessionStore) (k : String) (v : Session) :
    sessionStorage.getByToken (sessionStorage.setKey st k v) k = some v := by
  unfold sessionStorage.getByToken sessionStorage.setKey
  by_cases hany : (st.any (fun kv => kv.1 == k)) = true
  · rw [if_pos hany, find?_map_setKey_self st k v hany]
    rfl
  · rw [if_neg hany, List.find?_append]
    have hnone : st.find? (fun kv => kv.1 == k) = none := by
      rw [List.find?_eq_none]
      intro x hx
      intro hpx
      have : st.any (fun kv => kv.1 == k) = true :=
        List.any_eq_true.mpr ⟨x, hx, hpx⟩
      exact hany this
    rw [hnone]
    simp

/-- C7: when a stored session matches the submitted refresh token,
`refreshSession` returns a brand-new session row carrying a fresh
access/refresh token pair and a fresh 7-day expiry while keeping the
same account identity and device fingerprint; the old row is deleted,
the new row is stored under the new access token, and a `getSession`
lookup of the pre-rotation access token afterwards returns absent at
any instant. -/
theorem c7_rotate_invalidates_old_token (st : SessionStore) (refreshToken : String)
    (now : Millis) (newAccessToken newRefreshToken : String) (sess : Session)
    (hfind : (st.map (fun kv => kv.2)).find? (fun s => s.refreshToken == refreshToken)
      = some sess)
    (hrt : refreshToken ≠ "")
    (hna : newAccessToken ≠ sess.accessToken) :
    (refreshSession st refreshToken now newAccessToken newRefreshToken).1
        = some { sess with
                 accessToken := newAccessToken, refreshToken := newRefreshToken
                 updatedAt := some now, expiresAt := now + SEVEN_DAYS_MS }
    ∧ sessionStorage.getByToken
        (refreshSession st refreshToken now newAccessToken newRefreshToken).2 newAccessToken
        = some { sess with
                 accessToken := newAccessToken, refreshToken := newRefreshToken
                 updatedAt := some now, expiresAt := now + SEVEN_DAYS_MS }
    ∧ ∀ tlook : Millis,
        (getSession (refreshSession st refreshToken now newAccessToken newRefreshToken).2
          sess.accessToken tlook).1 = none := by
  have hrtb : (refreshToken == "") = false := by
    simp [hrt]
  have hunfold : refreshSession st refreshToken now newAccessToken newRefreshToken
      = (some { sess with
                accessToken := newAccessToken, refreshToken := newRefreshToken
                updatedAt := some now, expiresAt := now + SEVEN_DAYS_MS },
         sessionStorage.save (sessionStorage.delete st sess.accessToken)
           { sess with
             accessToken := newAccessToken, refreshToken := newRefreshToken
             updatedAt := some now, expiresAt := now + SEVEN_DAYS_MS }) := by
    unfold refreshSession
    rw [hrtb]
    simp only [Bool.false_eq_true, if_false, hfind]
  have hold : sessionStorage.getByToken
      (refreshSession st refreshToken now newAccessToken newRefreshToken).2 sess.accessToken
      = none := by
    rw [hunfold]
    show sessionStorage.getByToken
      (sessionStorage.setKey (sessionStorage.delete st sess.accessToken) newAccessToken _)
      sess.accessToken = none
    rw [getByToken_setKey_ne _ _ _ _ (Ne.symm hna), getByToken_delete_self]
  refine ⟨by rw [hunfold], ?_, ?_⟩
  · rw [hunfold]
    exact getByToken_setKey_self _ _ _
  · intro tlook
    unfold getSession
    by_cases hempty : (sess.accessToken == "") = true
    · rw [if_pos hempty]
    · rw [if_neg hempty, hold]

/-- Concrete session row for the C7 witness. -/
def sessC7 : Session :=
  { accessToken := "access_1_aaaaaaaaa", refreshToken := "refresh_1_bbbbbbbbb"
    parentEmail := "c7@x.io", deviceFingerprint := "device_1"
    createdAt := 0, updatedAt := none, expiresAt := 604800000 }

/-- C7 witness: rotation on a one-row store invalidates the old access
token. -/
theorem c7_rotate_invalidates_old_token_witness :
    (([("access_1_aaaaaaaaa", sessC7)].map (fun kv => kv.2)).find?
        (fun s => s.refreshToken == "refresh_1_bbbbbbbbb") = some sessC7)
    ∧ (getSession (refreshSession [("access_1_aaaaaaaaa", sessC7)] "refresh_1_bbbbbbbbb" 10
          "access_2_ccccccccc" "refresh_2_ddddddddd").2
        sessC7.accessToken 10).1 = none :=
  ⟨rfl,
    (c7_rotate_invalidates_old_token [("access_1_aaaaaaaaa", sessC7)] "refresh_1_bbbbbbbbb" 10
      "access_2_ccccccccc" "refresh_2_ddddddddd" sessC7 rfl (by decide) (by decide)).2.2 10⟩

/-- C8: a `getSession` lookup of a stored session whose expiry instant
has passed deletes the row as a side effect and returns absent, and the
sessions namespace afterwards holds no record under that token. (A
stored access token is non-empty — tokens are produced as
`access_` concatenations — so the falsy early return is not taken.) -/
theorem c8_lookup_purges_expired (st : SessionStore) (accessToken : String) (now : Millis)
    (sess : Session)
    (hfind : sessionStorage.getByToken st accessToken = some sess)
    (hexp : sess.expiresAt < now)
    (hne : accessToken ≠ "") :
    (getSession st accessToken now).1 = none
    ∧ (getSession st accessToken now).2 = sessionStorage.delete st accessToken
    ∧ ∀ kv ∈ sessionStorage.getAll (getSession st accessToken now).2,
        kv.1 ≠ accessToken := by
  have hneb : (accessToken == "") = false := by
    simp [hne]
  have hunfold : getSession st accessToken now
      = (none, sessionStorage.delete st accessToken) := by
    unfold getSession
    rw [hneb]
    simp only [Bool.false_eq_true, if_false, hfind]
    rw [if_pos hexp]
  refine ⟨by rw [hunfold], by rw [hunfold], ?_⟩
  intro kv hkv
  rw [hunfold] at hkv
  have hmem := (List.mem_filter.mp hkv).2
  simpa using hmem

/-- Concrete expired session row for the C8 witness. -/
def sessC8 : Session :=
  { accessToken := "access_3_eeeeeeeee", refreshToken := "refresh_3_fffffffff"
    parentEmail := "c8@x.io", deviceFingerprint := "device_3"
    createdAt := 0, updatedAt := none, expiresAt := 50 }

/-- C8 witness: lazy expiry purge on a one-row store. -/
theorem c8_lookup_purges_expired_witness :
    sessionStorage.getByToken [("access_3_eeeeeeeee", sessC8)] "access_3_eeeeeeeee"
        = some sessC8
    ∧ sessC8.expiresAt < 100
    ∧ (getSession [("access_3_eeeeeeeee", sessC8)] "access_3_eeeeeeeee" 100).1 = none :=
  ⟨rfl, by decide,
    (c8_lookup_purges_expired [("access_3_eeeeeeeee", sessC8)] "access_3_eeeeeeeee" 100 sessC8
      rfl (by decide) (by decide)).1⟩

/-- Pre-existing account row for C1: a completed profile. -/
def parentC1 : Parent :=
  { email := "alice@x.io", name := some "Alice", skippedProfileSetup := some true
    createdAt := 100, updatedAt := 100 }

/-- App state for C1: the account above plus a live OTP for its email. -/
def appC1 : AppState :=
  { parents := parentStorage.save (fun _ => none) parentC1
    sessions := []
    otpData := otpStorage.save (fun _ => none) "alice@x.io"
      { email := "alice@x.io", attempts := [], currentOTP := some "123456"
        otpGeneratedAt := some 1000 }
    analytics := [] }

/-- C1 counterexample: a successful `completeSignup` for an
already-existing account replaces the stored row with a fresh
`{email, createdAt, updatedAt}` record — the already-set `name` and
`skippedProfileSetup` are wiped to absent and the original creation
timestamp (100) is overwritten with the call instant (2000), refuting
"leaves already-set profile fields untouched". -/
theorem c1_counterexample :
    (completeSignup appC1 "alice@x.io" "123456" 2000 "fp" "at1" "rt1").1.success = true
    ∧ parentStorage.getByEmail appC1.parents "alice@x.io" = some parentC1
    ∧ parentC1.name = some "Alice"
    ∧ parentStorage.getByEmail
        (completeSignup appC1 "alice@x.io" "123456" 2000 "fp" "at1" "rt1").2.parents "alice@x.io"
      = some { email := "alice@x.io", name := none, skippedProfileSetup := none
               createdAt := 2000, updatedAt := 2000 } :=
  ⟨rfl, rfl, rfl, rfl⟩

/-- C1 amended: a successful `completeSignup(email, code)` does not
upsert-preserving — it unconditionally replaces the Account row with a
fresh record `{email (lowercased), createdAt := now, updatedAt := now}`
whose optional profile fields are absent, discarding any already-set
profile fields and the original creation timestamp. -/
theorem c1_resignup_overwrites (st : AppState) (email otp : String) (now : Millis)
    (fp tok rtok : String)
    (hs : (completeSignup st email otp now fp tok rtok).1.success = true) :
    parentStorage.getByEmail (completeSignup st email otp now fp tok rtok).2.parents email
      = some { email := lowerStr email, name := none, skippedProfileSetup := none
               createdAt := now, updatedAt := now }
    ∧ (completeSignup st email otp now fp tok rtok).1.parent
      = some { email := lowerStr email, name := none, skippedProfileSetup := none
               createdAt := now, updatedAt := now } := by
  by_cases hv : (validateOTP st.otpData email otp now).1.valid = true
  · constructor
    · simp only [completeSignup, hv, if_true]
      rw [parent_getByEmail_save]
      rw [if_pos]
      exact (lowerStr_idem email).symm
    · simp only [completeSignup, hv, if_true]
  · rw [Bool.not_eq_true] at hv
    simp only [completeSignup, hv, Bool.false_eq_true, if_false] at hs

/-- C1 witness: the overwriting theorem applied at the concrete state
of the counterexample. -/
theorem c1_resignup_overwrites_witness :
    (completeSignup appC1 "alice@x.io" "123456" 2000 "fp" "at1" "rt1").1.success = true
    ∧ (completeSignup appC1 "alice@x.io" "123456" 2000 "fp" "at1" "rt1").1.parent
      = some { email := lowerStr "alice@x.io", name := none, skippedProfileSetup := none
               createdAt := 2000, updatedAt := 2000 } :=
  ⟨rfl,
    (c1_resignup_overwrites appC1 "alice@x.io" "123456" 2000 "fp" "at1" "rt1" rfl).2⟩

/-- C5 counterexample: `generateOTPForEmail` against a backend whose
persisting write throws still reports `{success: true}` while the
stored namespace is unchanged, and a read whose underlying storage
operation throws silently returns absent — refuting "the failure is
reported to the caller and never silently swallowed". -/
theorem c5_counterexample :
    (generateOTPForEmailW (fun _ => none) "c5@x.io" "123456" 0 (Except.error ())).1.success = true
    ∧ (generateOTPForEmailW (fun _ => none) "c5@x.io" "123456" 0 (Except.error ())).2
        = (fun _ => none)
    ∧ otpStorage.getByEmailRaw (Except.error ()) "c5@x.io" = none :=
  ⟨rfl, rfl, rfl⟩

/-- C5 amended: the storage layer converts underlying failures into
in-band defaults instead of propagating them — `setItem` returns
`false`, `getItem` returns null so a failed read is indistinguishable
from an absent key and `getAll` defaults it to the empty namespace —
and `generateOTPForEmail` discards the `save` Boolean: its result
object is identical whether the persisting write succeeded or failed,
so `requestCode` reports success with no mutation when the write
failed. -/
theorem c5_storage_failure_swallowed :
    storageService.setItem (Except.error ()) = false
    ∧ (∀ email : String, otpStorage.getByEmailRaw (Except.error ()) email = none)
    ∧ (∀ (st : OtpStore) (email otp : String) (now : Millis),
        (generateOTPForEmailW st email otp now (Except.error ())).1
          = (generateOTPForEmailW st email otp now (Except.ok ())).1)
    ∧ (∀ (st : OtpStore) (email otp : String) (now : Millis),
        hasExceededMaxAttempts now (getOTPData st email).attempts = false →
        (generateOTPForEmailW st email otp now (Except.error ())).1.success = true
        ∧ (generateOTPForEmailW st email otp now (Except.error ())).2 = st) := by
  refine ⟨rfl, fun email => rfl, ?_, ?_⟩
  · intro st email otp now
    by_cases hth : hasExceededMaxAttempts now (getOTPData st email).attempts = true
    · simp [generateOTPForEmailW, hth]
    · rw [Bool.not_eq_true] at hth
      simp [generateOTPForEmailW, hth]
  · intro st email otp now hth
    constructor
    · simp [generateOTPForEmailW, hth]
    · simp [generateOTPForEmailW, hth, storageService.setItem]

/-- C5 witness: the amended theorem applied on a fresh store. -/
theorem c5_storage_failure_swallowed_witness :
    hasExceededMaxAttempts 0 (getOTPData (fun _ => none) "c5w@x.io").attempts = false
    ∧ ((generateOTPForEmailW (fun _ => none) "c5w@x.io" "654321" 0 (Except.error ())).1.success
          = true
       ∧ (generateOTPForEmailW (fun _ => none) "c5w@x.io" "654321" 0 (Except.error ())).2
          = (fun _ => none)) :=
  ⟨by decide,
    c5_storage_failure_swallowed.2.2.2 (fun _ => none) "c5w@x.io" "654321" 0 (by decide)⟩

/-- A namespace map whose live keys are all in lowercase form. -/
def lowerKeyed {α : Type} (st : String → Option α) : Prop :=
  ∀ k, (st k).isSome = true → lowerStr k = k

/-- C10: account-store and OTP-store operations key by the lowercased
email, so a read after a write under any spelling with the same
lowercase form returns the written record; saves and deletes preserve
the all-keys-lowercase invariant, under which two distinct live keys
never share a lowercase form (at most one record per lowercase email). -/
theorem c10_lowercase_email_keys :
    (∀ (st : OtpStore) (e1 e2 : String) (d : OTPData), lowerStr e1 = lowerStr e2 →
        otpStorage.getByEmail (otpStorage.save st e1 d) e2 = some d)
    ∧ (∀ (st : ParentStore) (p : Parent) (e2 : String), lowerStr p.email = lowerStr e2 →
        parentStorage.getByEmail (parentStorage.save st p) e2 = some p)
    ∧ (∀ (st : OtpStore) (e : String) (d : OTPData),
        lowerKeyed st → lowerKeyed (otpStorage.save st e d))
    ∧ (∀ (st : OtpStore) (e : String), lowerKeyed st → lowerKeyed (otpStorage.delete st e))
    ∧ (∀ (st : ParentStore) (p : Parent), lowerKeyed st → lowerKeyed (parentStorage.save st p))
    ∧ (∀ (st : ParentStore) (e : String), lowerKeyed st → lowerKeyed (parentStorage.delete st e))
    ∧ (∀ {α : Type} (st : String → Option α), lowerKeyed st →
        ∀ k1 k2, (st k1).isSome = true → (st k2).isSome = true →
          lowerStr k1 = lowerStr k2 → k1 = k2) := by
  refine ⟨?_, ?_, ?_, ?_, ?_, ?_, ?_⟩
  · intro st e1 e2 d h
    rw [otp_getByEmail_save, if_pos h.symm]
  · intro st p e2 h
    rw [parent_getByEmail_save, if_pos h.symm]
  · intro st e d hst k hk
    by_cases hke : k = lowerStr e
    · rw [hke, lowerStr_idem]
    · apply hst
      simpa [otpStorage.save, hke] using hk
  · intro st e hst k hk
    by_cases hke : k = lowerStr e
    · simp [otpStorage.delete, hke] at hk
    · apply hst
      simpa [otpStorage.delete, hke] using hk
  · intro st p hst k hk
    by_cases hke : k = lowerStr p.email
    · rw [hke, lowerStr_idem]
    · apply hst
      simpa [parentStorage.save, hke] using hk
  · intro st e hst k hk
    by_cases hke : k = lowerStr e
    · simp [parentStorage.delete, hke] at hk
    · apply hst
      simpa [parentStorage.delete, hke] using hk
  · intro α st hst k1 k2 h1 h2 h12
    rw [← hst k1 h1, ← hst k2 h2, h12]

/-- Record used by the C10 witness. -/
def dC10 : OTPData :=
  { email := "ab@x.io", attempts := [], currentOTP := none, otpGeneratedAt := none }

/-- C10 witness: a write under one spelling is read back under another
spelling with the same lowercase form. -/
theorem c10_lowercase_email_keys_witness :
    lowerStr "Ab@X.io" = lowerStr "aB@x.IO"
    ∧ otpStorage.getByEmail (otpStorage.save (fun _ => none) "Ab@X.io" dC10) "aB@x.IO"
        = some dC10 :=
  ⟨by decide,
    c10_lowercase_email_keys.1 (fun _ => none) "Ab@X.io" "aB@x.IO" dC10 (by decide)⟩

end Palura

